import Mathlib

/-!
Shallow embedding of `src/rag/setup-test/src/health_check.py`.

The script runs a fixed sequence of environment checks (interpreter
version, five module imports, the ollama CLI with an HTTP fallback, and
an in-memory SQLite round trip) and collects one result record per
check.  Every interaction with the outside world (module loading,
subprocess invocation, the HTTP probe, the database) is abstracted into
an explicit environment value describing its outcome; each check is then
a total Lean function of that environment, translated clause by clause
from the Python source.  Exceptions raised by the external operations
appear as constructors of the outcome types, and the `except` clauses of
the source become the corresponding `match` arms.
-/

namespace HealthCheck

/-- Python string truthiness for `a or b` on strings: `b` when `a` is empty. -/
def pyOr (a b : String) : String := if a = "" then b else a

/-- Python `str.strip()` (whitespace from both ends), kernel-computable. -/
def pyStrip (s : String) : String :=
  ⟨((s.data.dropWhile Char.isWhitespace).reverse.dropWhile Char.isWhitespace).reverse⟩

/-- Python `str.lower()` (ASCII case folding), kernel-computable. -/
def pyLower (s : String) : String := ⟨s.data.map Char.toLower⟩

/-- Python `pat in s` substring test, executable.  An index `i` with
`pat` a prefix of `s` dropped at `i` exists iff `pat` occurs in `s`
(including the empty pattern, as in Python). -/
def containsSubstrB (s pat : String) : Bool :=
  (List.range (s.data.length + 1)).any fun i => pat.data.isPrefixOf (s.data.drop i)

/-- Propositional substring containment, used in specification statements
("details contains ..."). -/
def strContains (s pat : String) : Prop :=
  ∃ a b : List Char, s.data = a ++ pat.data ++ b

/-- The check-result record built by `format_result`:
`{"name": ..., "status": "ok"|"error", "details": ...}`. -/
structure Result where
  name : String
  status : String
  details : String
deriving DecidableEq, Repr

/-- Embedding of `format_result(name, ok, details)` from the source. -/
def format_result (name : String) (ok : Bool) (details : String) : Result :=
  { name := name, status := if ok then "ok" else "error", details := details }

/-- Python tuple `>=` on integer tuples, lexicographic with the
shorter-tuple rule: a tuple is `>=` a strict prefix of itself. -/
def pyTupleGe : List Nat → List Nat → Bool
  | _, [] => true
  | [], _ :: _ => false
  | a :: as, b :: bs =>
    if b < a then true else if a < b then false else pyTupleGe as bs

/-- The interpreter facts `check_python` reads: `sys.version_info`
(its first three components; the comparison against `(3, 9)` never
inspects the release level or serial) and `platform.python_version()`. -/
structure PythonEnv where
  major : Nat
  minor : Nat
  micro : Nat
  version_str : String

/-- Embedding of `check_python()`: ok iff `version_info >= (3, 9)`; details names the
detected version, plus a remediation note when below the minimum. -/
def check_python (env : PythonEnv) : Result :=
  let ok := pyTupleGe [env.major, env.minor, env.micro] [3, 9]
  let details := "Python " ++ env.version_str ++ " detected"
  let details := if ok then details else details ++ " (requires >= 3.9)"
  format_result "python" ok details

/-- Outcome of `import_module(module_name)`: the module loads (with its
optional `__version__` attribute), or the load raises with a message. -/
inductive ImportOutcome where
  | loads (version : Option String)
  | raises (msg : String)
deriving DecidableEq, Repr

/-- Embedding of `check_import(module_name, display_name)`: `display_name or module_name`
names the result; a successful load reports the version attribute
(`"unknown"` when absent), a failed load reports the exception message. -/
def check_import (module_name : String) (display_name : Option String)
    (out : ImportOutcome) : Result :=
  let display := match display_name with
    | none => module_name
    | some s => pyOr s module_name
  match out with
  | .loads version =>
    format_result display true ("Import OK (version: " ++ version.getD "unknown" ++ ")")
  | .raises msg =>
    format_result display false ("Import failed: " ++ msg)

/-- A `subprocess.CompletedProcess` with captured text output. -/
structure CompletedProcess where
  returncode : Int
  stdout : String
  stderr : String
deriving DecidableEq, Repr

/-- Outcome of `_run_ollama_cmd(args)` (`subprocess.run` with a 5 s
timeout): a completed process, or one of the exceptions it can raise.
`timeoutExpired` is `subprocess.TimeoutExpired`, a subclass of
`Exception`, so in `check_ollama_cli` it is caught by the generic
`except Exception` clause, exactly like `raises`. -/
inductive RunOutcome where
  | completed (proc : CompletedProcess)
  | fileNotFound
  | timeoutExpired (msg : String)
  | raises (msg : String)
deriving DecidableEq, Repr

/-- Outcome of `urllib.request.urlopen` on the version endpoint:
a response (status, reason, decoded body), an `HTTPError`, a `URLError`,
or any other exception. -/
inductive HttpOutcome where
  | success (status : Nat) (reason : String) (body : String)
  | httpError (code : Nat) (reason : String)
  | urlError (reason : String)
  | raises (msg : String)
deriving DecidableEq, Repr

/-- Embedding of `_probe_ollama_http()`, under a given probe outcome. -/
def probe_ollama_http : HttpOutcome → Result
  | .success status reason body =>
    format_result "ollama_http" true
      ("HTTP " ++ toString status ++ " " ++ reason ++ " @ /api/version: "
        ++ pyOr (pyStrip body) "OK")
  | .httpError code reason =>
    format_result "ollama_http" false
      ("HTTP error @ /api/version: " ++ toString code ++ " " ++ reason)
  | .urlError reason =>
    format_result "ollama_http" false
      ("HTTP connection error to http://localhost:11434: " ++ reason)
  | .raises msg =>
    format_result "ollama_http" false ("HTTP probe error: " ++ msg)

/-- The environment of `check_ollama_cli`: the outcome of running the
CLI with a given argument list, and the outcome of the HTTP probe. -/
structure OllamaEnv where
  run : List String → RunOutcome
  http : HttpOutcome

/-- Details for a variant that exited 0:
`(proc.stdout or proc.stderr or "").strip() or f"ollama {args} OK"`. -/
def okDetails (variant : List String) (proc : CompletedProcess) : String :=
  pyOr (pyStrip (pyOr proc.stdout (pyOr proc.stderr "")))
    ("ollama " ++ String.intercalate " " variant ++ " OK")

/-- One iteration of the loop body of `check_ollama_cli` on a variant:
`some r` is an early `return r`, `none` is `continue`. -/
def variantStep (variant : List String) (out : RunOutcome) : Option Result :=
  match out with
  | .completed proc =>
    if proc.returncode == 0 then
      some (format_result "ollama_cli" true (okDetails variant proc))
    else
      let stderr := (pyLower (pyStrip proc.stderr))
      if containsSubstrB stderr "unknown command" || containsSubstrB stderr "unknown flag" then
        none
      else
        some (format_result "ollama_cli" false
          ("Exit code " ++ toString proc.returncode ++ ": " ++ (pyStrip proc.stderr)))
  | .fileNotFound =>
    some (format_result "ollama_cli" false "ollama CLI not found on PATH")
  | .timeoutExpired msg =>
    some (format_result "ollama_cli" false ("Command error: " ++ msg))
  | .raises msg =>
    some (format_result "ollama_cli" false ("Command error: " ++ msg))

/-- The `for variant in try_variants` loop; falls through to the HTTP
probe when every variant hit `continue`. -/
def runVariants (env : OllamaEnv) : List (List String) → Result
  | [] => probe_ollama_http env.http
  | v :: rest =>
    match variantStep v (env.run v) with
    | some r => r
    | none => runVariants env rest

/-- The list `try_variants = [["--version"], ["version"]]`. -/
def try_variants : List (List String) := [["--version"], ["version"]]

/-- Embedding of `check_ollama_cli()`. -/
def check_ollama_cli (env : OllamaEnv) : Result :=
  runVariants env try_variants

/-- Outcome of the SQLite open/create/insert/select sequence: it runs to
completion with `fetchone` returning a row (its `label` column) or
`None`, or some step raises. -/
inductive SqliteOutcome where
  | completes (row : Option String)
  | raises (msg : String)
deriving DecidableEq, Repr

/-- Embedding of `check_sqlite()`: ok iff a row came back and its value is `"ok"`;
any exception becomes an error result carrying the message. -/
def check_sqlite (out : SqliteOutcome) : Result :=
  match out with
  | .completes row =>
    let ok := match row with
      | some v => v == "ok"
      | none => false
    format_result "sqlite" ok
      (if ok then "In-memory DB create/insert/select OK" else "Unexpected query result")
  | .raises msg =>
    format_result "sqlite" false ("SQLite error: " ++ msg)

/-- The whole environment `main` runs against. -/
structure Env where
  python : PythonEnv
  imports : String → ImportOutcome
  ollama : OllamaEnv
  sqlite : SqliteOutcome

/-- The `{"results": [...]}` report printed by `main`. -/
structure Report where
  results : List Result
deriving Repr

/-- Embedding of `main()`: the fixed check sequence, in source order. -/
def main (env : Env) : Report :=
  { results :=
      [ check_python env.python
      , check_import "langchain" (some "langchain") (env.imports "langchain")
      , check_import "langchain_community" (some "langchain-community")
          (env.imports "langchain_community")
      , check_import "langchain_ollama" (some "langchain-ollama")
          (env.imports "langchain_ollama")
      , check_import "dotenv" (some "python-dotenv") (env.imports "dotenv")
      , check_import "pypdf" (some "pypdf") (env.imports "pypdf")
      , check_ollama_cli env.ollama
      , check_sqlite env.sqlite ] }

end HealthCheck

namespace HealthCheck

/-! ### Helper lemmas -/

lemma strContains_append_right (a pat : String) : strContains (a ++ pat) pat :=
  ⟨a.data, [], by simp⟩

lemma strContains_middle (a pat b : String) : strContains (a ++ pat ++ b) pat :=
  ⟨a.data, b.data, by simp⟩

lemma pyTupleGe_39_iff (M m u : Nat) :
    pyTupleGe [M, m, u] [3, 9] = true ↔ (3 < M ∨ (M = 3 ∧ 9 ≤ m)) := by
  simp only [pyTupleGe]
  split_ifs <;> simp <;> omega

lemma format_result_name (n : String) (ok : Bool) (d : String) :
    (format_result n ok d).name = n := rfl

lemma format_result_status (n : String) (ok : Bool) (d : String) :
    (format_result n ok d).status = if ok then "ok" else "error" := rfl

lemma format_result_status_or (n : String) (ok : Bool) (d : String) :
    ((format_result n ok d).status == "ok" || (format_result n ok d).status == "error") = true := by
  cases ok <;> rfl

end HealthCheck

namespace HealthCheck

/-- The environment outcome under which the loop body of
`check_ollama_cli` skips a variant: the command completed, exited
non-zero, and its error output names an unknown command or flag. -/
def skippedAsUnknown (out : RunOutcome) : Prop :=
  ∃ proc, out = RunOutcome.completed proc ∧ ¬proc.returncode = 0 ∧
    (containsSubstrB (pyLower (pyStrip proc.stderr)) "unknown command" = true ∨
     containsSubstrB (pyLower (pyStrip proc.stderr)) "unknown flag" = true)

lemma variantStep_eq_none_iff (v : List String) (out : RunOutcome) :
    variantStep v out = none ↔ skippedAsUnknown out := by
  cases out with
  | completed proc =>
    simp only [variantStep]
    cases h0 : proc.returncode == 0 with
    | true =>
      have heq : proc.returncode = 0 := by simpa using h0
      simp only [h0, if_true]
      constructor
      · intro h; cases h
      · rintro ⟨p, hp, hprc, _⟩
        injection hp with hpp
        subst hpp
        exact absurd heq hprc
    | false =>
      have hne : ¬proc.returncode = 0 := fun he => by simp [he] at h0
      simp only [h0, Bool.false_eq_true, if_false]
      cases hc : (containsSubstrB (pyLower (pyStrip proc.stderr)) "unknown command"
          || containsSubstrB (pyLower (pyStrip proc.stderr)) "unknown flag") with
      | true =>
        simp only [hc, if_true]
        constructor
        · intro _
          refine ⟨proc, rfl, hne, ?_⟩
          simpa using hc
        · intro _; trivial
      | false =>
        simp only [hc, Bool.false_eq_true, if_false]
        constructor
        · intro h; cases h
        · rintro ⟨p, hp, _, hsub⟩
          injection hp with hpp
          subst hpp
          rcases hsub with hs | hs <;> simp [hs] at hc
  | fileNotFound => simp [variantStep, skippedAsUnknown]
  | timeoutExpired msg => simp [variantStep, skippedAsUnknown]
  | raises msg => simp [variantStep, skippedAsUnknown]

lemma variantStep_some_name (v : List String) (out : RunOutcome) (r : Result)
    (h : variantStep v out = some r) : r.name = "ollama_cli" := by
  cases out with
  | completed proc =>
    simp only [variantStep] at h
    split at h
    · cases h; rfl
    · split at h
      · cases h
      · cases h; rfl
  | fileNotFound => cases h; rfl
  | timeoutExpired msg => cases h; rfl
  | raises msg => cases h; rfl

lemma variantStep_some_status (v : List String) (out : RunOutcome) (r : Result)
    (h : variantStep v out = some r) :
    (r.status == "ok" || r.status == "error") = true := by
  cases out with
  | completed proc =>
    simp only [variantStep] at h
    split at h
    · cases h; rfl
    · split at h
      · cases h
      · cases h; rfl
  | fileNotFound => cases h; rfl
  | timeoutExpired msg => cases h; rfl
  | raises msg => cases h; rfl

lemma probe_ollama_http_name (o : HttpOutcome) :
    (probe_ollama_http o).name = "ollama_http" := by
  cases o <;> rfl

lemma probe_ollama_http_status (o : HttpOutcome) :
    ((probe_ollama_http o).status == "ok" || (probe_ollama_http o).status == "error") = true := by
  cases o <;> rfl

/-- The function `check_ollama_cli` with the two-variant loop unrolled. -/
lemma check_ollama_cli_unfold (env : OllamaEnv) :
    check_ollama_cli env =
      match variantStep ["--version"] (env.run ["--version"]) with
      | some r => r
      | none =>
        match variantStep ["version"] (env.run ["version"]) with
        | some r => r
        | none => probe_ollama_http env.http := rfl

end HealthCheck

namespace HealthCheck

/-! ### Claim theorems: the individual checks -/

/-- C5.  `check_python` reports status "ok" exactly when the interpreter
version is at least (3, 9); its details always contain the detected
version string, and when the version is below the minimum they also
contain the remediation note.  The check is a total function of the
interpreter facts, so it cannot raise. -/
theorem check_python_spec (env : PythonEnv) :
    ((check_python env).status = "ok" ↔ (3 < env.major ∨ (env.major = 3 ∧ 9 ≤ env.minor)))
    ∧ strContains (check_python env).details env.version_str
    ∧ ((env.major < 3 ∨ (env.major = 3 ∧ env.minor < 9)) →
        strContains (check_python env).details " (requires >= 3.9)") := by
  refine ⟨?_, ?_, ?_⟩
  · rw [← pyTupleGe_39_iff env.major env.minor env.micro]
    simp only [check_python, format_result]
    cases pyTupleGe [env.major, env.minor, env.micro] [3, 9] <;> simp
  · simp only [check_python, format_result]
    cases pyTupleGe [env.major, env.minor, env.micro] [3, 9]
    · exact ⟨"Python ".data, (" detected" ++ " (requires >= 3.9)").data, by simp⟩
    · exact ⟨"Python ".data, " detected".data, by simp⟩
  · intro hlt
    have hne : pyTupleGe [env.major, env.minor, env.micro] [3, 9] = false := by
      rcases Bool.eq_false_or_eq_true (pyTupleGe [env.major, env.minor, env.micro] [3, 9])
        with h | h
      · rcases (pyTupleGe_39_iff env.major env.minor env.micro).mp h with h' | h' <;> omega
      · exact h
    simp only [check_python, format_result, hne, Bool.false_eq_true, if_false]
    exact ⟨("Python " ++ env.version_str ++ " detected").data, [], by simp⟩

/-- Witness for C5 at interpreter version 3.8.0: the check is below the
minimum and the remediation note appears in the details. -/
theorem check_python_spec_witness :
    strContains (check_python ⟨3, 8, 0, "3.8.0"⟩).details " (requires >= 3.9)" :=
  (check_python_spec ⟨3, 8, 0, "3.8.0"⟩).2.2 (by decide)

/-- C6.  `check_import` reports status "ok" with the self-reported module
version in the details when the load succeeds (the absent
attribute becomes "unknown", never an error), and status "error" with
the failure message embedded in the details when the load fails. -/
theorem check_import_spec (module_name : String) (display_name : Option String) :
    (∀ v : Option String,
      (check_import module_name display_name (ImportOutcome.loads v)).status = "ok" ∧
      (check_import module_name display_name (ImportOutcome.loads v)).details
        = "Import OK (version: " ++ v.getD "unknown" ++ ")")
    ∧ (∀ msg : String,
      (check_import module_name display_name (ImportOutcome.raises msg)).status = "error" ∧
      strContains (check_import module_name display_name (ImportOutcome.raises msg)).details msg) :=
  ⟨fun _ => ⟨rfl, rfl⟩,
   fun _ => ⟨rfl, ⟨"Import failed: ".data, [], by simp [check_import, format_result]⟩⟩⟩

/-- C7.  `check_sqlite` reports status "ok" exactly when the sequence
completes and the selected row holds the inserted constant "ok"; an
exception anywhere in the sequence becomes a status "error" result whose
details contain the exception message. -/
theorem check_sqlite_spec :
    (∀ out : SqliteOutcome,
      ((check_sqlite out).status = "ok" ↔ out = SqliteOutcome.completes (some "ok")))
    ∧ (∀ msg : String,
      (check_sqlite (SqliteOutcome.raises msg)).status = "error" ∧
      strContains (check_sqlite (SqliteOutcome.raises msg)).details msg) := by
  constructor
  · intro out
    cases out with
    | completes row =>
      cases row with
      | none => simp [check_sqlite, format_result]
      | some v =>
        cases hv : v == "ok" with
        | true =>
          have : v = "ok" := by simpa using hv
          subst this
          simp [check_sqlite, format_result]
        | false =>
          have : ¬v = "ok" := fun he => by simp [he] at hv
          simp [check_sqlite, format_result, hv, this]
    | raises msg => simp [check_sqlite, format_result]
  · intro msg
    exact ⟨rfl, ⟨"SQLite error: ".data, [], by simp [check_sqlite, format_result]⟩⟩

end HealthCheck

namespace HealthCheck

lemma check_python_status_or (env : PythonEnv) :
    ((check_python env).status == "ok" || (check_python env).status == "error") = true := by
  simp only [check_python]
  exact format_result_status_or _ _ _

lemma check_import_status_or (mn : String) (dn : Option String) (out : ImportOutcome) :
    ((check_import mn dn out).status == "ok" || (check_import mn dn out).status == "error")
      = true := by
  cases out <;> simp only [check_import] <;> exact format_result_status_or _ _ _

lemma check_ollama_cli_status_or (env : OllamaEnv) :
    ((check_ollama_cli env).status == "ok" || (check_ollama_cli env).status == "error")
      = true := by
  rw [check_ollama_cli_unfold]
  cases h1 : variantStep ["--version"] (env.run ["--version"]) with
  | some r => simp only [h1]; exact variantStep_some_status _ _ _ h1
  | none =>
    simp only [h1]
    cases h2 : variantStep ["version"] (env.run ["version"]) with
    | some r => simp only [h2]; exact variantStep_some_status _ _ _ h2
    | none => simp only [h2]; exact probe_ollama_http_status _

lemma check_sqlite_status_or (out : SqliteOutcome) :
    ((check_sqlite out).status == "ok" || (check_sqlite out).status == "error") = true := by
  cases out with
  | completes row =>
    cases row with
    | none => rfl
    | some v =>
      simp only [check_sqlite]
      exact format_result_status_or _ _ _
  | raises msg => rfl

/-- C2.  Running the fixed check sequence yields exactly one result per
check (eight in total), and the status field of every result is exactly "ok"
or exactly "error".  Each check is a total function of its environment
outcome — every exception path of the source is one of the modelled
outcome constructors, all of which are converted to a result — so no
check raises past the runner. -/
theorem main_result_statuses (env : Env) :
    (main env).results.length = 8 ∧
    ((main env).results.all fun r => r.status == "ok" || r.status == "error") = true := by
  refine ⟨rfl, ?_⟩
  simp only [main, List.all_cons, List.all_nil, Bool.and_eq_true, Bool.and_true]
  exact ⟨check_python_status_or _, check_import_status_or _ _ _, check_import_status_or _ _ _,
    check_import_status_or _ _ _, check_import_status_or _ _ _, check_import_status_or _ _ _,
    check_ollama_cli_status_or _, check_sqlite_status_or _⟩

/-- Two invocations of `main` against the same environment. -/
def runTwice (env : Env) : Report × Report := (main env, main env)

/-- C9.  Running the full check sequence twice against an unchanged
environment produces two structurally identical reports: the same names
in the same order, the same statuses, and the same details.  The
sequence reads nothing but the environment (no clocks, no randomness),
so the report is a function of it. -/
theorem runTwice_identical (env : Env) :
    (runTwice env).1.results.map Result.name = (runTwice env).2.results.map Result.name
    ∧ (runTwice env).1.results.map Result.status = (runTwice env).2.results.map Result.status
    ∧ (runTwice env).1.results.map Result.details = (runTwice env).2.results.map Result.details :=
  ⟨rfl, rfl, rfl⟩

/-- A run of the CLI that times out on the first variant; the HTTP
outcome is irrelevant to the result. -/
def envTimeout : OllamaEnv where
  run := fun _ => RunOutcome.timeoutExpired "Command timed out after 5 seconds"
  http := HttpOutcome.raises "unused"

/-- C3 counterexample.  A timeout of the process invocation does NOT
propagate out of `check_ollama_cli`: `subprocess.TimeoutExpired`
subclasses `Exception`, so the generic `except Exception` clause catches
it and the check returns an error result. -/
theorem check_ollama_cli_timeout_counterexample :
    check_ollama_cli envTimeout
      = format_result "ollama_cli" false "Command error: Command timed out after 5 seconds"
    ∧ (check_ollama_cli envTimeout).status = "error" :=
  ⟨rfl, rfl⟩

/-- C3 amended.  Whichever CLI invocation raises the timeout — the
first variant, or the second after the first was skipped as
unrecognized — the generic exception handler converts it into an error
result carrying the exception message; nothing propagates. -/
theorem check_ollama_cli_timeout_caught (env : OllamaEnv) :
    (∀ msg : String, env.run ["--version"] = RunOutcome.timeoutExpired msg →
      check_ollama_cli env = format_result "ollama_cli" false ("Command error: " ++ msg))
    ∧ (∀ msg : String, skippedAsUnknown (env.run ["--version"]) →
      env.run ["version"] = RunOutcome.timeoutExpired msg →
      check_ollama_cli env = format_result "ollama_cli" false ("Command error: " ++ msg)) := by
  constructor
  · intro msg h
    rw [check_ollama_cli_unfold, h]
    rfl
  · intro msg hs1 h
    have h1 : variantStep ["--version"] (env.run ["--version"]) = none :=
      (variantStep_eq_none_iff _ _).mpr hs1
    rw [check_ollama_cli_unfold, h1, h]
    rfl

/-- Witness for the amended C3 at a concrete environment. -/
theorem check_ollama_cli_timeout_caught_witness :
    check_ollama_cli envTimeout
      = format_result "ollama_cli" false
          ("Command error: " ++ "Command timed out after 5 seconds") :=
  (check_ollama_cli_timeout_caught envTimeout).1 "Command timed out after 5 seconds" rfl

end HealthCheck

namespace HealthCheck

lemma variantStep_completed_zero (v : List String) (proc : CompletedProcess)
    (h : proc.returncode = 0) :
    variantStep v (RunOutcome.completed proc)
      = some (format_result "ollama_cli" true (okDetails v proc)) := by
  simp [variantStep, h]

/-- C1.  The HTTP fallback is reached exactly when both CLI variants
were skipped because the error output of the tool named an unrecognized
command or flag; a missing binary or a non-zero exit for any other
reason produces the corresponding error result at once — the right-hand
sides below are determined by the variant outcome alone, so the HTTP
probe outcome `env.http` never enters. -/
theorem check_ollama_cli_fallback_iff (env : OllamaEnv) :
    ((check_ollama_cli env).name = "ollama_http" ↔
      (skippedAsUnknown (env.run ["--version"]) ∧ skippedAsUnknown (env.run ["version"])))
    ∧ (env.run ["--version"] = RunOutcome.fileNotFound →
        check_ollama_cli env = format_result "ollama_cli" false "ollama CLI not found on PATH")
    ∧ (∀ proc : CompletedProcess,
        env.run ["--version"] = RunOutcome.completed proc → ¬proc.returncode = 0 →
        containsSubstrB (pyLower (pyStrip proc.stderr)) "unknown command" = false →
        containsSubstrB (pyLower (pyStrip proc.stderr)) "unknown flag" = false →
        check_ollama_cli env = format_result "ollama_cli" false
          ("Exit code " ++ toString proc.returncode ++ ": " ++ pyStrip proc.stderr))
    ∧ (skippedAsUnknown (env.run ["--version"]) →
        (env.run ["version"] = RunOutcome.fileNotFound →
          check_ollama_cli env = format_result "ollama_cli" false "ollama CLI not found on PATH")
        ∧ (∀ proc : CompletedProcess,
            env.run ["version"] = RunOutcome.completed proc → ¬proc.returncode = 0 →
            containsSubstrB (pyLower (pyStrip proc.stderr)) "unknown command" = false →
            containsSubstrB (pyLower (pyStrip proc.stderr)) "unknown flag" = false →
            check_ollama_cli env = format_result "ollama_cli" false
              ("Exit code " ++ toString proc.returncode ++ ": " ++ pyStrip proc.stderr))) := by
  refine ⟨?_, ?_, ?_, ?_⟩
  · rw [check_ollama_cli_unfold]
    cases h1 : variantStep ["--version"] (env.run ["--version"]) with
    | some r =>
      simp only [h1]
      have hn := variantStep_some_name _ _ _ h1
      constructor
      · intro hname
        rw [hn] at hname
        exact absurd hname (by decide)
      · rintro ⟨hs1, _⟩
        rw [(variantStep_eq_none_iff _ _).mpr hs1] at h1
        cases h1
    | none =>
      simp only [h1]
      have hs1 : skippedAsUnknown (env.run ["--version"]) :=
        (variantStep_eq_none_iff _ _).mp h1
      cases h2 : variantStep ["version"] (env.run ["version"]) with
      | some r =>
        simp only [h2]
        have hn := variantStep_some_name _ _ _ h2
        constructor
        · intro hname
          rw [hn] at hname
          exact absurd hname (by decide)
        · rintro ⟨_, hs2⟩
          rw [(variantStep_eq_none_iff _ _).mpr hs2] at h2
          cases h2
      | none =>
        simp only [h2]
        have hs2 : skippedAsUnknown (env.run ["version"]) :=
          (variantStep_eq_none_iff _ _).mp h2
        simp [probe_ollama_http_name, hs1, hs2]
  · intro h
    rw [check_ollama_cli_unfold, h]
    rfl
  · intro proc hp hrc hc1 hc2
    have h0 : (proc.returncode == 0) = false := by simpa using hrc
    rw [check_ollama_cli_unfold, hp]
    simp [variantStep, h0, hc1, hc2]
  · intro hs1
    have h1 : variantStep ["--version"] (env.run ["--version"]) = none :=
      (variantStep_eq_none_iff _ _).mpr hs1
    constructor
    · intro h
      rw [check_ollama_cli_unfold, h1, h]
      rfl
    · intro proc hp hrc hc1 hc2
      have h0 : (proc.returncode == 0) = false := by simpa using hrc
      rw [check_ollama_cli_unfold, h1, hp]
      simp [variantStep, h0, hc1, hc2]

/-- A machine with no ollama binary on the PATH. -/
def envNoBinary : OllamaEnv where
  run := fun _ => RunOutcome.fileNotFound
  http := HttpOutcome.raises "unused"

/-- Witness for C1: with the binary missing, the check fails at once. -/
theorem check_ollama_cli_fallback_iff_witness :
    check_ollama_cli envNoBinary
      = format_result "ollama_cli" false "ollama CLI not found on PATH" :=
  (check_ollama_cli_fallback_iff envNoBinary).2.1 rfl

/-- C10.  Every result the HTTP fallback produces is named
"ollama_http", success or failure; so whenever the fallback is reached
the entry of the service check is named "ollama_http", not "ollama_cli". -/
theorem check_ollama_cli_fallback_name (env : OllamaEnv) :
    (∀ o : HttpOutcome, (probe_ollama_http o).name = "ollama_http")
    ∧ (skippedAsUnknown (env.run ["--version"]) → skippedAsUnknown (env.run ["version"]) →
        check_ollama_cli env = probe_ollama_http env.http
        ∧ (check_ollama_cli env).name = "ollama_http"
        ∧ ¬(check_ollama_cli env).name = "ollama_cli") := by
  refine ⟨probe_ollama_http_name, fun hs1 hs2 => ?_⟩
  have h1 := (variantStep_eq_none_iff ["--version"] _).mpr hs1
  have h2 := (variantStep_eq_none_iff ["version"] _).mpr hs2
  have he : check_ollama_cli env = probe_ollama_http env.http := by
    rw [check_ollama_cli_unfold, h1, h2]
  refine ⟨he, ?_, ?_⟩
  · rw [he]
    exact probe_ollama_http_name _
  · rw [he, probe_ollama_http_name]
    decide

/-- A CLI that rejects both version variants as unknown, with the local
HTTP API answering. -/
def envUnknownCmd : OllamaEnv where
  run := fun _ => RunOutcome.completed ⟨1, "", "Error: unknown command"⟩
  http := HttpOutcome.success 200 "OK" "0.5.1"

/-- Witness for C10 at a concrete environment: the fallback entry is
named "ollama_http". -/
theorem check_ollama_cli_fallback_name_witness :
    check_ollama_cli envUnknownCmd
      = probe_ollama_http (HttpOutcome.success 200 "OK" "0.5.1") :=
  ((check_ollama_cli_fallback_name envUnknownCmd).2
    ⟨⟨1, "", "Error: unknown command"⟩, rfl, by decide, Or.inl (by decide)⟩
    ⟨⟨1, "", "Error: unknown command"⟩, rfl, by decide, Or.inl (by decide)⟩).1

end HealthCheck

namespace HealthCheck

/-- The success details restated as the specification words them: the chosen
stream (stdout, else stderr) stripped — except that when the chosen
stream strips to the empty string the source substitutes the placeholder
`"ollama <args> OK"`. -/
lemma okDetails_eq_spec (variant : List String) (proc : CompletedProcess) :
    okDetails variant proc =
      (if pyStrip (if proc.stdout = "" then proc.stderr else proc.stdout) = ""
       then "ollama " ++ String.intercalate " " variant ++ " OK"
       else pyStrip (if proc.stdout = "" then proc.stderr else proc.stdout)) := by
  have hAB : pyOr proc.stdout (pyOr proc.stderr "")
      = if proc.stdout = "" then proc.stderr else proc.stdout := by
    simp only [pyOr]
    by_cases h1 : proc.stdout = ""
    · by_cases h2 : proc.stderr = "" <;> simp [h1, h2]
    · simp [h1]
  rw [okDetails, hAB]
  rfl

/-- A CLI whose `--version` exits 0 printing only whitespace. -/
def envBlankOut : OllamaEnv where
  run := fun _ => RunOutcome.completed ⟨0, " ", ""⟩
  http := HttpOutcome.raises "unused"

/-- C8 counterexample.  With standard output `" "` the variant exits 0,
but the details are the placeholder `"ollama --version OK"`, not the
trimmed standard output (which is empty). -/
theorem check_ollama_cli_success_details_counterexample :
    (check_ollama_cli envBlankOut).status = "ok"
    ∧ (check_ollama_cli envBlankOut).details = "ollama --version OK"
    ∧ ¬(check_ollama_cli envBlankOut).details = pyStrip " " := by
  refine ⟨rfl, rfl, ?_⟩
  decide

/-- C8 amended.  For every CLI variant reached whose invocation exits 0,
the check returns status "ok" and details equal to the trimmed standard
output — or the trimmed standard error when standard output is empty —
unless the chosen stream trims to the empty string, in which case the
details are the placeholder `"ollama <args> OK"`. -/
theorem check_ollama_cli_success_details (env : OllamaEnv) :
    (∀ proc : CompletedProcess,
      env.run ["--version"] = RunOutcome.completed proc → proc.returncode = 0 →
      check_ollama_cli env = format_result "ollama_cli" true
        (if pyStrip (if proc.stdout = "" then proc.stderr else proc.stdout) = ""
         then "ollama --version OK"
         else pyStrip (if proc.stdout = "" then proc.stderr else proc.stdout)))
    ∧ (∀ proc : CompletedProcess,
      skippedAsUnknown (env.run ["--version"]) →
      env.run ["version"] = RunOutcome.completed proc → proc.returncode = 0 →
      check_ollama_cli env = format_result "ollama_cli" true
        (if pyStrip (if proc.stdout = "" then proc.stderr else proc.stdout) = ""
         then "ollama version OK"
         else pyStrip (if proc.stdout = "" then proc.stderr else proc.stdout))) := by
  constructor
  · intro proc hp h0
    rw [check_ollama_cli_unfold, hp, variantStep_completed_zero _ _ h0]
    show format_result "ollama_cli" true (okDetails ["--version"] proc) = _
    rw [okDetails_eq_spec]
    rfl
  · intro proc hs1 hp h0
    have h1 : variantStep ["--version"] (env.run ["--version"]) = none :=
      (variantStep_eq_none_iff _ _).mpr hs1
    rw [check_ollama_cli_unfold, h1, hp, variantStep_completed_zero _ _ h0]
    show format_result "ollama_cli" true (okDetails ["version"] proc) = _
    rw [okDetails_eq_spec]
    rfl

/-- A CLI whose `--version` exits 0 with output "v0.1.0". -/
def envVersionOk : OllamaEnv where
  run := fun _ => RunOutcome.completed ⟨0, "v0.1.0", ""⟩
  http := HttpOutcome.raises "unused"

/-- Witness for the amended C8: output "v0.1.0" is reported verbatim. -/
theorem check_ollama_cli_success_details_witness :
    check_ollama_cli envVersionOk = format_result "ollama_cli" true "v0.1.0" :=
  ((check_ollama_cli_success_details envVersionOk).1 ⟨0, "v0.1.0", ""⟩ rfl rfl).trans
    (by decide)

end HealthCheck

namespace HealthCheck

/-- An environment where every module resolves, the CLI exits 0 on
`--version`, and the database round trip works — but the interpreter is
Python 3.8. -/
def envPython38 : Env where
  python := ⟨3, 8, 0, "3.8.0"⟩
  imports := fun _ => ImportOutcome.loads (some "1.0")
  ollama := ⟨fun _ => RunOutcome.completed ⟨0, "v0.1.0", ""⟩, HttpOutcome.raises "unused"⟩
  sqlite := SqliteOutcome.completes (some "ok")

/-- C4 counterexample.  Resolvable dependencies, a working CLI and a
working database do not suffice for an all-"ok" report: under an
interpreter below 3.9 the python entry reports "error" while the report
still has the claimed shape. -/
theorem main_all_ok_counterexample :
    (main envPython38).results.length = 8
    ∧ (main envPython38).results.map Result.name
        = ["python", "langchain", "langchain-community", "langchain-ollama",
           "python-dotenv", "pypdf", "ollama_cli", "sqlite"]
    ∧ ((main envPython38).results.all fun r => r.status == "ok") = false := by
  refine ⟨rfl, by decide, by decide⟩

/-- C4 amended.  When the interpreter is at least 3.9, every dependency
module resolves, the CLI exits 0 on a version variant — either the
first, or the second after the first was skipped as unrecognized — and
the in-memory database round trip returns the inserted row, the report
has exactly eight entries, carries the names in the fixed order, and
every entry reports status "ok". -/
theorem main_all_ok (env : Env)
    (hpy : 3 < env.python.major ∨ (env.python.major = 3 ∧ 9 ≤ env.python.minor))
    (himp : ∀ m : String, ∃ v : Option String, env.imports m = ImportOutcome.loads v)
    (hcli : (∃ proc : CompletedProcess,
        env.ollama.run ["--version"] = RunOutcome.completed proc ∧ proc.returncode = 0)
      ∨ (skippedAsUnknown (env.ollama.run ["--version"])
        ∧ ∃ proc : CompletedProcess,
          env.ollama.run ["version"] = RunOutcome.completed proc ∧ proc.returncode = 0))
    (hsql : env.sqlite = SqliteOutcome.completes (some "ok")) :
    (main env).results.length = 8
    ∧ (main env).results.map Result.name
        = ["python", "langchain", "langchain-community", "langchain-ollama",
           "python-dotenv", "pypdf", "ollama_cli", "sqlite"]
    ∧ ((main env).results.all fun r => r.status == "ok") = true := by
  obtain ⟨v1, h1⟩ := himp "langchain"
  obtain ⟨v2, h2⟩ := himp "langchain_community"
  obtain ⟨v3, h3⟩ := himp "langchain_ollama"
  obtain ⟨v4, h4⟩ := himp "dotenv"
  obtain ⟨v5, h5⟩ := himp "pypdf"
  have hpyok : pyTupleGe [env.python.major, env.python.minor, env.python.micro] [3, 9]
      = true := (pyTupleGe_39_iff _ _ _).mpr hpy
  have hcliE : ∃ d : String,
      check_ollama_cli env.ollama = format_result "ollama_cli" true d := by
    rcases hcli with ⟨proc, hp, hp0⟩ | ⟨hs1, proc, hp, hp0⟩
    · exact ⟨okDetails ["--version"] proc,
        by rw [check_ollama_cli_unfold, hp, variantStep_completed_zero _ _ hp0]⟩
    · have hn1 : variantStep ["--version"] (env.ollama.run ["--version"]) = none :=
        (variantStep_eq_none_iff _ _).mpr hs1
      exact ⟨okDetails ["version"] proc,
        by rw [check_ollama_cli_unfold, hn1, hp, variantStep_completed_zero _ _ hp0]⟩
  obtain ⟨d, hcliR⟩ := hcliE
  refine ⟨rfl, ?_, ?_⟩
  · simp [main, check_python, check_import, pyOr, h1, h2, h3, h4, h5, hcliR, hsql,
      check_sqlite, format_result]
  · simp [main, check_python, check_import, pyOr, h1, h2, h3, h4, h5, hcliR, hsql,
      check_sqlite, format_result, hpyok]

/-- A fully healthy environment: Python 3.11, all modules with versions,
the CLI answering `--version`, and a working database. -/
def envAllOk : Env where
  python := ⟨3, 11, 2, "3.11.2"⟩
  imports := fun _ => ImportOutcome.loads (some "0.3.0")
  ollama := ⟨fun _ => RunOutcome.completed ⟨0, "ollama version is 0.5.1", ""⟩,
    HttpOutcome.raises "unused"⟩
  sqlite := SqliteOutcome.completes (some "ok")

/-- Witness for the amended C4 at a concrete healthy environment. -/
theorem main_all_ok_witness :
    ((main envAllOk).results.all fun r => r.status == "ok") = true ∧
    (main envAllOk).results.map Result.name
        = ["python", "langchain", "langchain-community", "langchain-ollama",
           "python-dotenv", "pypdf", "ollama_cli", "sqlite"] :=
  ⟨(main_all_ok envAllOk (Or.inr ⟨rfl, by decide⟩)
      (fun _ => ⟨some "0.3.0", rfl⟩)
      (Or.inl ⟨⟨0, "ollama version is 0.5.1", ""⟩, rfl, rfl⟩) rfl).2.2,
   (main_all_ok envAllOk (Or.inr ⟨rfl, by decide⟩)
      (fun _ => ⟨some "0.3.0", rfl⟩)
      (Or.inl ⟨⟨0, "ollama version is 0.5.1", ""⟩, rfl, rfl⟩) rfl).2.1⟩

end HealthCheck
